import Mathlib

/-!
Verification of the SecureModelHub frontend request-orchestration layer.

The definitions below are a shallow embedding of the JavaScript sources
`src/frontend/app.js` and `src/frontend/contribute.js`.  JavaScript values
are modelled by the inductive `JVal`; promise rejection of a sub-request
(network failure or a body that fails to parse as JSON) is modelled by
`Except Unit`; the cooperative single-threaded event loop is modelled by an
explicit scheduler over handler phases, where each step is one synchronous
slice of an async handler (slices are delimited by `await` points exactly as
in the source).
-/

/-- Model of a JavaScript/JSON value as supplied by `res.json()`. -/
inductive JVal where
  | jnull
  | jnum (n : Int)
  | jstr (s : String)
  | jbool (b : Bool)
  | jobj (fields : List (String × JVal))

/-- Optional-chaining property access `x?.k`: `undefined` is modelled by
`none`; a non-object receiver or an absent key yields `undefined`. -/
def JVal.getField : JVal → String → Option JVal
  | .jobj fields, k => fields.lookup k
  | _, _ => none

/-- The nullish-coalescing operator `x ?? d`: `null` and `undefined`
both fall through to the default. -/
def nullish (x : Option JVal) (d : JVal) : JVal :=
  match x with
  | none => d
  | some .jnull => d
  | some v => v

/-- `Object.values(x)`: throws a TypeError on `null`/`undefined`
(modelled by `.error ()`), lists field values of an object in insertion
order, lists the characters of a string, and yields `[]` on other
primitives. -/
def objectValues : JVal → Except Unit (List JVal)
  | .jnull => .error ()
  | .jobj fields => .ok (fields.map (fun p => p.2))
  | .jstr s => .ok (s.data.map (fun c => .jstr (String.mk [c])))
  | _ => .ok []

/-- JavaScript string coercion as used in template literals. -/
def jsToString : JVal → String
  | .jnull => "null"
  | .jnum n => toString n
  | .jstr s => s
  | .jbool b => if b then "true" else "false"
  | .jobj _ => "[object Object]"

/-- JavaScript truthiness of a possibly-undefined value. -/
def jsTruthy : Option JVal → Bool
  | none => false
  | some .jnull => false
  | some (.jstr s) => !(s == "")
  | some (.jnum n) => !(n == 0)
  | some (.jbool b) => b
  | some (.jobj _) => true

/-- JavaScript `a || b`: the left operand if truthy, else the right. -/
def truthyOr (x : Option JVal) (d : JVal) : JVal :=
  if jsTruthy x then x.getD d else d

/-- The detail record produced by `fetchModelDetails`
(`src/frontend/app.js`): `rating` and `cost` hold whatever JS values the
function assigns (numbers, strings, or the sentinel string). -/
structure Details where
  rating : JVal
  cost : JVal

/-- The all-sentinel record returned from the catch branch of
`fetchModelDetails`. -/
def sentinelDetails : Details := ⟨.jstr "N/A", .jstr "N/A"⟩

/-- Embedding of `fetchModelDetails` (`src/frontend/app.js` lines 139-158).
`ratingFetch` and `costFetch` are the outcomes of the two sub-requests
(`fetch(...).then(res => res.json())`): `.error ()` models promise
rejection (network failure or a non-JSON body).  `Promise.all` rejects as
soon as either rejects, landing in the catch branch; `Object.values` on a
null payload throws inside the try and also lands in the catch branch. -/
def fetchModelDetails (ratingFetch costFetch : Except Unit JVal) : Details :=
  match ratingFetch, costFetch with
  | .ok ratingResponse, .ok costResponse =>
    match objectValues costResponse with
    | .error _ => sentinelDetails
    | .ok vals =>
      let cost := nullish (vals.head?.bind (fun v => v.getField "total_cost")) (.jstr "N/A")
      { rating := nullish (ratingResponse.getField "net_score") (.jstr "N/A")
        cost := .jstr (jsToString cost ++ " MB") }
  | _, _ => sentinelDetails

/-- The API base URL configured in both frontend files. -/
def API_BASE_URL : String :=
  "https://moy7eewxxe.execute-api.us-east-2.amazonaws.com/main"

/-- URL of the rating sub-request issued by `fetchModelDetails`
(`src/frontend/app.js` line 142): the path segment `model` is written
literally in the template. -/
def ratingRequestUrl (id : String) : String :=
  API_BASE_URL ++ "/artifact/model/" ++ id ++ "/rate"

/-- URL of the cost sub-request issued by `fetchModelDetails`
(`src/frontend/app.js` line 143): the path interpolates the `model_type`
argument. -/
def costRequestUrl (id model_type : String) : String :=
  API_BASE_URL ++ "/artifact/" ++ model_type ++ "/" ++ id ++ "/cost"

/-- The list of request URLs issued by `fetchModelDetails(id, model_type)`,
in the order they appear in the `Promise.all` array. -/
def fetchModelDetailsRequests (id model_type : String) : List String :=
  [ratingRequestUrl id, costRequestUrl id model_type]

/-- Outcome of one underlying `fetch(url, options)` call in
`src/frontend/contribute.js`: either a response with a status code and a
body text, or a transport-level failure (the promise rejects). -/
inductive FetchOutcome where
  | response (status : Nat) (body : String)
  | networkFailure
deriving DecidableEq

/-- The errors thrown inside `fetchWithRetry`: the terminal-set error
built from status and body text, the generic HTTP error, and a
transport failure. -/
inductive RetryError where
  | apiError (status : Nat) (body : String)
  | httpError (status : Nat)
  | transportError
deriving DecidableEq

/-- `response.ok` per the Fetch specification: status in 200..299. -/
def isOk (status : Nat) : Bool :=
  200 ≤ status && status ≤ 299

/-- The status check on line 39 of `src/frontend/contribute.js`. -/
def isTerminalStatus (status : Nat) : Bool :=
  status == 400 || status == 403 || status == 409 || status == 424

/-- One iteration body of the `fetchWithRetry` loop up to its first
`throw` or `return`: a 2xx response is returned; a terminal-set status
throws the API error carrying status and body text; any other status
throws the generic HTTP error; a rejected fetch is the transport error. -/
def attemptOutcome : FetchOutcome → Except RetryError Nat
  | .networkFailure => .error .transportError
  | .response status body =>
    if isOk status then .ok status
    else if isTerminalStatus status then .error (.apiError status body)
    else .error (.httpError status)

deriving instance DecidableEq for Except

/-- Observable trace of one `fetchWithRetry` call: the value it settles
with (`none` models falling off the loop and returning `undefined`, which
happens only when `maxRetries = 0`), the backoff delays awaited in order,
and the number of fetch attempts performed. -/
structure RetryTrace where
  result : Option (Except RetryError Nat)
  delays : List Nat
  attemptsMade : Nat
deriving DecidableEq

/-- Embedding of the loop of `fetchWithRetry`
(`src/frontend/contribute.js` lines 26-58), indexed by the current
zero-based `attempt` and the number of remaining iterations
(`maxRetries - attempt`).  Any error thrown in the loop body is caught by
the catch block of the same iteration: on the last attempt it is
re-thrown, otherwise the loop sleeps `2 ^ attempt * 1000` and retries. -/
def runRetryFrom (outcomes : Nat → FetchOutcome) (attempt : Nat) : Nat → RetryTrace
  | 0 => ⟨none, [], 0⟩
  | remaining + 1 =>
    match attemptOutcome (outcomes attempt) with
    | .ok s => ⟨some (.ok s), [], 1⟩
    | .error e =>
      if remaining = 0 then ⟨some (.error e), [], 1⟩
      else
        let rest := runRetryFrom outcomes (attempt + 1) remaining
        ⟨rest.result, 2 ^ attempt * 1000 :: rest.delays, rest.attemptsMade + 1⟩

/-- `fetchWithRetry(url, options, maxRetries)` where `outcomes k` is what
the underlying fetch does on the k-th (zero-based) attempt. -/
def fetchWithRetry (outcomes : Nat → FetchOutcome) (maxRetries : Nat) : RetryTrace :=
  runRetryFrom outcomes 0 maxRetries

/-- A transient outcome in the sense of the retry policy: a transport
failure, or a response whose status is neither 2xx nor in the terminal
set. -/
def isTransient : FetchOutcome → Bool
  | .networkFailure => true
  | .response status _ => !isOk status && !isTerminalStatus status

/-- The error `fetchWithRetry` throws for a transient outcome. -/
def transientError : FetchOutcome → RetryError
  | .networkFailure => .transportError
  | .response status _ => .httpError status

/-- The backoff delays `2 ^ a * 1000, 2 ^ (a+1) * 1000, ...` (k of them),
as awaited by consecutive failed attempts starting at index a. -/
def backoffDelays (a : Nat) : Nat → List Nat
  | 0 => []
  | k + 1 => 2 ^ a * 1000 :: backoffDelays (a + 1) k

/-- The attempt outcomes of the scenario named in the spec: statuses
500, 500, then 201. -/
def outcomes500_500_201 : Nat → FetchOutcome :=
  fun n => if n < 2 then .response 500 "Internal Server Error" else .response 201 "created"

/-- What the submit handler reports through `showMessage`
(`src/frontend/contribute.js` lines 91-113): a success message carrying
the artifact name and id, or the failure message from the catch block. -/
inductive SubmitReport where
  | successMsg (name id : String)
  | failureMsg
deriving DecidableEq

/-- Whether a report is the success message. -/
def SubmitReport.isSuccess : SubmitReport → Bool
  | .successMsg _ _ => true
  | .failureMsg => false

/-- Embedding of the submit handler after `await fetchWithRetry(...)`
(`src/frontend/contribute.js` lines 91-113).  `res` is the settled value
of `fetchWithRetry` (`none` models it returning `undefined`, in which
case reading `response.status` throws); `body` is the outcome of
`response.json()` on the 201 path.  When `result.metadata?.name` is not
truthy the handler evaluates `nameInput.value`, but the `nameInput`
binding was removed (line 10), so a ReferenceError is thrown and caught
by the catch block, which shows the failure message. -/
def handleSubmitResult (res : Option (Except RetryError Nat))
    (body : Except Unit JVal) : SubmitReport :=
  match res with
  | some (.ok status) =>
    if status = 201 then
      match body with
      | .error _ => .failureMsg
      | .ok result =>
        let mname := (result.getField "metadata").bind (fun m => m.getField "name")
        if jsTruthy mname then
          let mid := (result.getField "metadata").bind (fun m => m.getField "id")
          .successMsg (jsToString (mname.getD .jnull))
            (jsToString (truthyOr mid (.jstr "N/A")))
        else .failureMsg
    else .failureMsg
  | some (.error _) => .failureMsg
  | none => .failureMsg

/-- Model of `String.prototype.trim`: strip leading and trailing
whitespace. -/
def jsTrim (s : String) : String :=
  String.mk (((s.data.dropWhile Char.isWhitespace).reverse.dropWhile Char.isWhitespace).reverse)

/-- The contents of the models grid as set by `searchArtifacts`: the
searching placeholder, the no-matches placeholder (which interpolates the
escaped query), the error placeholder from the catch block, or the
rendered result cards. -/
inductive GridState where
  | searching
  | noMatches (query : String)
  | searchError
  | rendered (cards : Nat)
deriving DecidableEq

/-- Observable actions of `searchArtifacts`, in program order. -/
inductive UAction where
  | enableSearchButton
  | disableSearchButton
  | enableSearchInput
  | disableSearchInput
  | setButtonContent
  | setGrid (g : GridState)
  | issueRegexRequest (regex : String)
  | callInit
deriving DecidableEq

/-- Outcome of the one regex-search request: a response whose body either
parses as a JSON array of artifacts or fails to parse, or a transport
failure. -/
inductive SearchOutcome where
  | response (status : Nat) (body : Except Unit (List JVal))
  | networkFailure
deriving Inhabited

/-- Embedding of `searchArtifacts` (`src/frontend/app.js` lines 27-131)
as its sequence of observable actions.  A blank query (empty, or
whitespace only after trim) re-enables the button and the input, restores
the button content, calls `init`, and returns without any request.
Otherwise the UI is locked, the regex request is issued, the response is
classified (404 and the empty array give the no-matches placeholder, any
other non-ok status or a rejected fetch or a non-JSON body lands in the
catch block showing the error placeholder), and the finally block
restores the button and the input on every path. -/
def searchArtifacts (query : String) (env : SearchOutcome) : List UAction :=
  if query = "" ∨ jsTrim query = "" then
    [.enableSearchButton, .enableSearchInput, .setButtonContent, .callInit]
  else
    [.disableSearchButton, .disableSearchInput, .setGrid .searching, .setButtonContent,
     .issueRegexRequest query] ++
    (match env with
     | .networkFailure => [.setGrid .searchError]
     | .response status body =>
       if isOk status then
         match body with
         | .error _ => [.setGrid .searchError]
         | .ok artifacts =>
           if artifacts.length = 0 then [.setGrid (.noMatches query)]
           else [.setGrid (.rendered artifacts.length)]
       else if status = 404 then [.setGrid (.noMatches query)]
       else [.setGrid .searchError]) ++
    [.enableSearchButton, .enableSearchInput, .setButtonContent]

/-- The grid contents left behind by a trace: the last `setGrid` action. -/
def finalGrid (acts : List UAction) : Option GridState :=
  (acts.filterMap (fun a => match a with | .setGrid g => some g | _ => none)).getLast?

/-- Phase of one card click handler (`src/frontend/app.js` lines 279-309):
`ready` is before its synchronous prefix runs (the cache check and, on a
miss, the start of `fetchModelDetails`); `awaitingDetails` is suspended at
the `await`; the done phases record whether the modal was opened from the
cache or from a fresh fetch. -/
inductive HandlerPhase where
  | ready
  | awaitingDetails
  | doneCached
  | doneFetched
deriving DecidableEq

/-- State of the page: the `modelDetailsCache` map (`src/frontend/app.js`
line 204), the number of `fetchModelDetails` calls started so far, and
the phase of each click handler. -/
structure GridSystem where
  cache : List (String × Details)
  fetchesStarted : Nat
  phases : List HandlerPhase

/-- `Map.prototype.set`: bind the key to the value (shadowing any earlier
binding in this association-list model; `List.lookup` sees the new one). -/
def setAssoc (m : List (String × Details)) (k : String) (v : Details) :
    List (String × Details) :=
  (k, v) :: m

/-- One cooperative slice of click handler `i` for artifact `id`, the
slices being delimited by the `await` in the handler: from `ready`, the
handler checks `modelDetailsCache.has(id)` and either finishes with the
cached record or starts `fetchModelDetails` and suspends; from
`awaitingDetails`, the fetch has resolved with `details`, and the handler
runs `modelDetailsCache.set(id, details)` and opens the modal. -/
def handlerStep (id : String) (details : Details) (st : GridSystem) (i : Nat) :
    GridSystem :=
  match st.phases.get? i with
  | some .ready =>
    match st.cache.lookup id with
    | some _ => { st with phases := st.phases.set i .doneCached }
    | none =>
      { st with fetchesStarted := st.fetchesStarted + 1,
                phases := st.phases.set i .awaitingDetails }
  | some .awaitingDetails =>
    { st with cache := setAssoc st.cache id details,
              phases := st.phases.set i .doneFetched }
  | _ => st

/-- Run the event loop under an explicit schedule: each entry names the
handler whose next slice runs. -/
def runSchedule (id : String) (details : Details) (st : GridSystem)
    (sched : List Nat) : GridSystem :=
  sched.foldl (handlerStep id details) st

/-- Initial page state with `n` ready click handlers for the same
artifact and an empty `modelDetailsCache`. -/
def initSystem (n : Nat) : GridSystem :=
  ⟨[], 0, List.replicate n .ready⟩

/-- A transient outcome makes the loop body throw the corresponding
transient error. -/
lemma attemptOutcome_transient (o : FetchOutcome) (h : isTransient o = true) :
    attemptOutcome o = .error (transientError o) := by
  cases o with
  | networkFailure => rfl
  | response status body =>
    simp only [isTransient, Bool.and_eq_true, Bool.not_eq_true'] at h
    simp [attemptOutcome, h.1, h.2, transientError]

/-- With `k + 1` iterations remaining and every consulted outcome
transient, the loop consumes all iterations, sleeps the exponential
backoffs in order, and re-throws the error of the last attempt. -/
lemma runRetryFrom_all_transient (outcomes : Nat → FetchOutcome) :
    ∀ (k a : Nat), (∀ j, a ≤ j → j < a + (k + 1) → isTransient (outcomes j) = true) →
    runRetryFrom outcomes a (k + 1) =
      ⟨some (.error (transientError (outcomes (a + k)))), backoffDelays a k, k + 1⟩ := by
  intro k
  induction k with
  | zero =>
    intro a h
    have ht := attemptOutcome_transient _ (h a (Nat.le_refl a) (by omega))
    simp [runRetryFrom, ht, backoffDelays]
  | succ k ih =>
    intro a h
    have ht := attemptOutcome_transient _ (h a (Nat.le_refl a) (by omega))
    have hrest := ih (a + 1) (fun j hj1 hj2 => h j (by omega) (by omega))
    have hidx : a + 1 + k = a + (k + 1) := by omega
    rw [hidx] at hrest
    simp only [runRetryFrom] at hrest
    simp only [runRetryFrom, ht, Nat.succ_ne_zero, if_false]
    rw [hrest]
    simp [backoffDelays]

/-- If the first `j` outcomes are transient and the outcome of attempt
`a + j` is a 2xx response, and at least `j + 1` iterations remain, the
loop resolves with that response after the first `j` backoffs. -/
lemma runRetryFrom_first_ok (outcomes : Nat → FetchOutcome) :
    ∀ (j a m s : Nat) (b : String), a + j < a + m →
    (∀ i, a ≤ i → i < a + j → isTransient (outcomes i) = true) →
    outcomes (a + j) = .response s b → isOk s = true →
    runRetryFrom outcomes a m = ⟨some (.ok s), backoffDelays a j, j + 1⟩ := by
  intro j
  induction j with
  | zero =>
    intro a m s b hm htrans hout hok
    obtain ⟨r, rfl⟩ : ∃ r, m = r + 1 := ⟨m - 1, by omega⟩
    have hatt : attemptOutcome (outcomes a) = .ok s := by
      rw [show a = a + 0 from rfl, hout]
      simp [attemptOutcome, hok]
    simp [runRetryFrom, hatt, backoffDelays]
  | succ j ih =>
    intro a m s b hm htrans hout hok
    obtain ⟨r, rfl⟩ : ∃ r, m = r + 1 := ⟨m - 1, by omega⟩
    have ht := attemptOutcome_transient _ (htrans a (Nat.le_refl a) (by omega))
    have hr0 : ¬ r = 0 := by omega
    have hrest := ih (a + 1) r s b (by omega)
        (fun i h1 h2 => htrans i (by omega) (by omega))
        (by rw [show a + 1 + j = a + (j + 1) from by omega]; exact hout) hok
    simp only [runRetryFrom] at hrest
    simp only [runRetryFrom, ht, hr0, if_false]
    rw [hrest]
    simp [backoffDelays]

/-- The i-th backoff delay starting at attempt index a. -/
lemma backoffDelays_get (a k i : Nat) (h : i < k) :
    (backoffDelays a k).get? i = some (2 ^ (a + i) * 1000) := by
  induction k generalizing a i with
  | zero => omega
  | succ k ih =>
    cases i with
    | zero => simp [backoffDelays]
    | succ i =>
      have := ih (a + 1) i (by omega)
      rw [show a + 1 + i = a + (i + 1) from by omega] at this
      simpa [backoffDelays] using this

/-- C1: the claim says a terminal-set status (400/403/409/424) on any
attempt makes `fetchWithRetry` fail immediately with no backoff delay and
no further attempts.  Evaluating the embedded code on a request whose
every attempt returns status 409 with body `conflict` and
`maxRetries = 3` shows the opposite: the terminal-error throw is caught
by the catch block of the same loop iteration, so the call performs all
three attempts and sleeps the backoffs 1000 and 2000 before finally
re-throwing the API error (which does carry the status and the body
text).  This contradicts the comments in the source itself, which call
these statuses not retriable. -/
theorem C1_terminal_status_retried_evidence :
    fetchWithRetry (fun _ => .response 409 "conflict") 3 =
      ⟨some (.error (.apiError 409 "conflict")), [1000, 2000], 3⟩ ∧
    ¬ ((fetchWithRetry (fun _ => .response 409 "conflict") 3).delays = [] ∧
       (fetchWithRetry (fun _ => .response 409 "conflict") 3).attemptsMade = 1) := by
  decide

/-- C4: on an all-transient outcome sequence, `fetchWithRetry` makes
exactly `maxAttempts` attempts, sleeps `2 ^ k * 1000` after failed
attempt `k`, and fails with the last observed error; on a first 2xx at
attempt `j` it resolves with that response after the first `j` backoffs;
the delay after failed attempt `i` is `2 ^ i * 1000`; and the scenario
with responses 500, 500, 201 and `maxAttempts = 3` resolves with 201
after exactly the two delays 1000 and 2000. -/
theorem C4_retry_policy_schedule :
    (∀ (m : Nat) (outcomes : Nat → FetchOutcome), 1 ≤ m →
      (∀ k, k < m → isTransient (outcomes k) = true) →
      fetchWithRetry outcomes m =
        ⟨some (.error (transientError (outcomes (m - 1)))), backoffDelays 0 (m - 1), m⟩) ∧
    (∀ (m j s : Nat) (b : String) (outcomes : Nat → FetchOutcome), j < m →
      (∀ k, k < j → isTransient (outcomes k) = true) →
      outcomes j = .response s b → isOk s = true →
      fetchWithRetry outcomes m = ⟨some (.ok s), backoffDelays 0 j, j + 1⟩) ∧
    (∀ a k i, i < k → (backoffDelays a k).get? i = some (2 ^ (a + i) * 1000)) ∧
    fetchWithRetry outcomes500_500_201 3 = ⟨some (.ok 201), [1000, 2000], 3⟩ := by
  refine ⟨?_, ?_, fun a k i h => backoffDelays_get a k i h, by decide⟩
  · intro m outcomes hm htrans
    obtain ⟨k, rfl⟩ : ∃ k, m = k + 1 := ⟨m - 1, by omega⟩
    have := runRetryFrom_all_transient outcomes k 0
        (fun j h1 h2 => htrans j (by omega))
    simpa [fetchWithRetry] using this
  · intro m j s b outcomes hj htrans hout hok
    have := runRetryFrom_first_ok outcomes j 0 m s b (by omega)
        (fun i h1 h2 => htrans i (by omega)) (by simpa using hout) hok
    simpa [fetchWithRetry] using this

/-- Witness for C4: two transient attempts with status 500 under
`maxAttempts = 2` exhaust the budget with one backoff of 1000 and fail
with the HTTP error of the last attempt. -/
theorem C4_retry_policy_schedule_witness :
    fetchWithRetry (fun _ => FetchOutcome.response 500 "oops") 2 =
      ⟨some (.error (.httpError 500)), [1000], 2⟩ := by
  have h := C4_retry_policy_schedule.1 2 (fun _ => .response 500 "oops") (by omega)
      (fun k _ => rfl)
  simpa [transientError, backoffDelays] using h

/-- C7: a blank or whitespace-only query makes `searchArtifacts` issue no
regex-search request at all; it re-enables the search button and the
search input and restores the button content, and only then invokes the
List flow (`init`). -/
theorem C7_blank_query_falls_back (query : String) (env : SearchOutcome)
    (h : jsTrim query = "") :
    searchArtifacts query env =
      [.enableSearchButton, .enableSearchInput, .setButtonContent, .callInit] ∧
    ∀ r, UAction.issueRegexRequest r ∉ searchArtifacts query env := by
  have heq : searchArtifacts query env =
      [.enableSearchButton, .enableSearchInput, .setButtonContent, .callInit] := by
    unfold searchArtifacts
    rw [if_pos (Or.inr h)]
  refine ⟨heq, fun r => ?_⟩
  rw [heq]
  simp

/-- Witness for C7 at the whitespace-only query from the spec. -/
theorem C7_blank_query_falls_back_witness :
    searchArtifacts "   " .networkFailure =
      [.enableSearchButton, .enableSearchInput, .setButtonContent, .callInit] :=
  (C7_blank_query_falls_back "   " .networkFailure (by rfl)).1

/-- C8: for a non-blank query, a 404 response leaves the grid in the
no-matches state; any other non-2xx non-404 response, and a transport
failure, leave it in the error state; and the two states are distinct
values of `GridState`. -/
theorem C8_search_terminal_states (query : String) (h : jsTrim query ≠ "") :
    (∀ body, finalGrid (searchArtifacts query (.response 404 body)) =
      some (.noMatches query)) ∧
    (∀ status body, isOk status = false → status ≠ 404 →
      finalGrid (searchArtifacts query (.response status body)) = some .searchError) ∧
    finalGrid (searchArtifacts query .networkFailure) = some .searchError ∧
    (∀ q, GridState.noMatches q ≠ .searchError) := by
  have hne : ¬ (query = "" ∨ jsTrim query = "") := by
    rintro (rfl | hblank)
    · exact h rfl
    · exact h hblank
  refine ⟨fun body => ?_, fun status body h1 h2 => ?_, ?_, fun q => by simp⟩
  · unfold searchArtifacts
    rw [if_neg hne]
    simp [finalGrid, isOk]
  · unfold searchArtifacts
    rw [if_neg hne]
    simp [finalGrid, h1, h2]
  · unfold searchArtifacts
    rw [if_neg hne]
    simp [finalGrid]

/-- Witness for C8 at the query `abc`: a 404 yields the no-matches
state, a 500 and a transport failure yield the error state. -/
theorem C8_search_terminal_states_witness :
    finalGrid (searchArtifacts "abc" (.response 404 (.ok []))) =
      some (.noMatches "abc") ∧
    finalGrid (searchArtifacts "abc" (.response 500 (.error ()))) = some .searchError ∧
    finalGrid (searchArtifacts "abc" .networkFailure) = some .searchError :=
  ⟨(C8_search_terminal_states "abc" (by decide)).1 (.ok []),
   (C8_search_terminal_states "abc" (by decide)).2.1 500 (.error ()) (by decide) (by decide),
   (C8_search_terminal_states "abc" (by decide)).2.2.1⟩

/-- C9: the rating sub-request URL built by `fetchModelDetails` is the
same whatever artifact type is passed (its path hard-codes the segment
`model`), while the cost sub-request URL changes with the type. -/
theorem C9_rating_url_ignores_type :
    (∀ id t1 t2, (fetchModelDetailsRequests id t1).head? =
      (fetchModelDetailsRequests id t2).head?) ∧
    (∀ id t1 t2, t1 ≠ t2 →
      (fetchModelDetailsRequests id t1).get? 1 ≠ (fetchModelDetailsRequests id t2).get? 1) := by
  constructor
  · intro id t1 t2
    rfl
  · intro id t1 t2 hne heq
    simp only [fetchModelDetailsRequests, List.get?] at heq
    rw [Option.some_inj] at heq
    apply hne
    have hdata := congrArg String.data heq
    simp only [costRequestUrl, String.data_append, List.append_assoc] at hdata
    have h1 := List.append_cancel_left hdata
    have h2 := List.append_cancel_left h1
    rw [← List.append_assoc, ← List.append_assoc, ← List.append_assoc,
        ← List.append_assoc] at h2
    have h3 := List.append_cancel_right h2
    have h4 := List.append_cancel_right h3
    have h5 := List.append_cancel_right h4
    exact String.ext h5

/-- Witness for C9: type `model` and type `dataset` give different cost
URLs for the same id. -/
theorem C9_rating_url_ignores_type_witness :
    (fetchModelDetailsRequests "x" "model").get? 1 ≠
      (fetchModelDetailsRequests "x" "dataset").get? 1 :=
  C9_rating_url_ignores_type.2 "x" "model" "dataset" (by decide)

/-- After `Map.set`, `Map.has` and `Map.get` see the new binding. -/
lemma lookup_setAssoc_self (m : List (String × Details)) (k : String) (v : Details) :
    (setAssoc m k v).lookup k = some v := by
  simp [setAssoc, List.lookup]

/-- Once `modelDetailsCache` holds an entry for `id`, no handler slice
starts another fetch, and the entry never disappears. -/
lemma handlerStep_of_cached (id : String) (d : Details) (st : GridSystem) (i : Nat)
    (h : (st.cache.lookup id).isSome = true) :
    (handlerStep id d st i).fetchesStarted = st.fetchesStarted ∧
    ((handlerStep id d st i).cache.lookup id).isSome = true := by
  unfold handlerStep
  split
  · split
    · exact ⟨rfl, h⟩
    · next hnone => rw [hnone] at h; exact absurd h (by simp)
  · exact ⟨rfl, by simp [lookup_setAssoc_self]⟩
  · exact ⟨rfl, h⟩

/-- Running any schedule from a state whose cache already holds `id`
starts no further fetch. -/
lemma runSchedule_of_cached (id : String) (d : Details) :
    ∀ (sched : List Nat) (st : GridSystem), (st.cache.lookup id).isSome = true →
    (runSchedule id d st sched).fetchesStarted = st.fetchesStarted := by
  intro sched
  induction sched with
  | nil => intro st _; rfl
  | cons i tail ih =>
    intro st h
    have hs := handlerStep_of_cached id d st i h
    show (runSchedule id d (handlerStep id d st i) tail).fetchesStarted = _
    rw [ih _ hs.2, hs.1]

/-- Running the first handler to completion from the initial state: one
fetch is started and its resolved record is stored in the cache. -/
lemma runSchedule_first_pair (id : String) (d : Details) (n : Nat) :
    runSchedule id d (initSystem (n + 1)) [0, 0] =
      ⟨[(id, d)], 1, .doneFetched :: List.replicate n .ready⟩ := rfl

/-- C2 counterexample: two click handlers for the same artifact id, both
running their synchronous cache-check slice before either fetch resolves
(schedule 0, 1, then the two resolutions), start two underlying
`fetchModelDetails` calls, not one: the cache stores only resolved
records, after the `await`, so the second handler misses. -/
theorem C2_counterexample_duplicate_fetch :
    (runSchedule "m1" ⟨.jnum 4, .jstr "12 MB"⟩ (initSystem 2) [0, 1, 0, 1]).fetchesStarted = 2 ∧
    (runSchedule "m1" ⟨.jnum 4, .jstr "12 MB"⟩ (initSystem 2) [0, 1, 0, 1]).fetchesStarted ≠ 1 :=
  ⟨rfl, by decide⟩

/-- C2 amended: the cache deduplicates only across requests issued after
an earlier one has resolved — once handler 0 has completed (schedule
prefix 0, 0), any further schedule starts no new fetch, so the total
stays one; but handlers whose cache-check slices all run before the first
resolution each start their own fetch (two concurrent clicks give two
fetches). -/
theorem C2_amended_resolved_entries_coalesce (id : String) (d : Details) (n : Nat)
    (rest : List Nat) :
    (runSchedule id d (initSystem (n + 1)) ([0, 0] ++ rest)).fetchesStarted = 1 ∧
    (runSchedule "m1" ⟨.jnum 4, .jstr "12 MB"⟩ (initSystem 2) [0, 1, 0, 1]).fetchesStarted = 2 := by
  constructor
  · have hsplit : runSchedule id d (initSystem (n + 1)) ([0, 0] ++ rest) =
        runSchedule id d (runSchedule id d (initSystem (n + 1)) [0, 0]) rest :=
      List.foldl_append ..
    rw [hsplit, runSchedule_first_pair]
    have := runSchedule_of_cached id d rest ⟨[(id, d)], 1, .doneFetched :: List.replicate n .ready⟩
        (by simp [List.lookup])
    rw [this]
  · rfl

/-- Either sub-request rejecting lands `fetchModelDetails` in its catch
branch, which returns the all-sentinel record. -/
lemma fetchModelDetails_of_error (rc cc : Except Unit JVal)
    (h : rc = .error () ∨ cc = .error ()) :
    fetchModelDetails rc cc = sentinelDetails := by
  cases rc with
  | error e => cases cc <;> rfl
  | ok r =>
    cases cc with
    | error e => rfl
    | ok c => rcases h with h | h <;> exact absurd h (by simp)

/-- C3 counterexample: when both detail sub-fetches fail, the handler
still caches the record `fetchModelDetails` resolved with — the
all-sentinel record — so the cache ends with an entry for the id, and a
subsequent request (handler 1) hits the cache and performs no fresh
fetch: the total stays at one fetch, not two. -/
theorem C3_counterexample_failed_fetch_cached :
    (runSchedule "m1" (fetchModelDetails (.error ()) (.error ())) (initSystem 2)
        [0, 0, 1]).cache.lookup "m1" = some sentinelDetails ∧
    (runSchedule "m1" (fetchModelDetails (.error ()) (.error ())) (initSystem 2)
        [0, 0, 1]).fetchesStarted = 1 :=
  ⟨rfl, rfl⟩

/-- C3 amended: when the underlying detail fetch for an id fails, the
cache ends with the sentinel record `{rating: N/A, cost: N/A}` stored
under that id (nothing is evicted), and any subsequent request for the
same id reuses that cached sentinel without a fresh fetch. -/
theorem C3_amended_failure_caches_sentinel (id : String) (rc cc : Except Unit JVal)
    (n : Nat) (rest : List Nat) (h : rc = .error () ∨ cc = .error ()) :
    (runSchedule id (fetchModelDetails rc cc) (initSystem (n + 1)) [0, 0]).cache.lookup id =
      some sentinelDetails ∧
    (runSchedule id (fetchModelDetails rc cc) (initSystem (n + 1))
        ([0, 0] ++ rest)).fetchesStarted = 1 := by
  have hd : fetchModelDetails rc cc = sentinelDetails := fetchModelDetails_of_error rc cc h
  rw [hd]
  constructor
  · rw [runSchedule_first_pair]
    simp [List.lookup]
  · have hsplit : runSchedule id sentinelDetails (initSystem (n + 1)) ([0, 0] ++ rest) =
        runSchedule id sentinelDetails (runSchedule id sentinelDetails (initSystem (n + 1))
          [0, 0]) rest :=
      List.foldl_append ..
    rw [hsplit, runSchedule_first_pair]
    have := runSchedule_of_cached id sentinelDetails rest
        ⟨[(id, sentinelDetails)], 1, .doneFetched :: List.replicate n .ready⟩
        (by simp [List.lookup])
    rw [this]

/-- Witness for C3 amended: one handler whose rating sub-fetch failed,
followed by a second request, leaves the sentinel cached and one fetch
started. -/
theorem C3_amended_failure_caches_sentinel_witness :
    (runSchedule "m1" (fetchModelDetails (.error ()) (.ok .jnull)) (initSystem 1)
        [0, 0]).cache.lookup "m1" = some sentinelDetails ∧
    (runSchedule "m1" (fetchModelDetails (.error ()) (.ok .jnull)) (initSystem 1)
        ([0, 0] ++ [0])).fetchesStarted = 1 :=
  C3_amended_failure_caches_sentinel "m1" (.error ()) (.ok .jnull) 0 [0] (Or.inl rfl)

/-- C5 counterexample: a rating payload that parses but lacks the
`net_score` field, paired with a successful cost payload, yields a
partial record — sentinel rating next to a real cost — because a missing
field does not throw; it only falls through the nullish-coalescing
default for that one field. -/
theorem C5_counterexample_partial_record :
    fetchModelDetails (.ok (.jobj []))
        (.ok (.jobj [("m1", .jobj [("total_cost", .jnum 12)])])) =
      ⟨.jstr "N/A", .jstr "12 MB"⟩ ∧
    JVal.jstr "12 MB" ≠ JVal.jstr "N/A" :=
  ⟨rfl, by simp⟩

/-- C5 amended: `fetchModelDetails` never rejects, and whenever either
sub-request itself throws (its promise rejects: network failure or a
non-JSON body) the whole call resolves with the all-sentinel record; but
a payload that parses while missing its field degrades only that field,
so a partial record is possible (the concrete missing-net-score case). -/
theorem C5_amended_rejection_swallowed (rc cc : Except Unit JVal)
    (h : rc = .error () ∨ cc = .error ()) :
    fetchModelDetails rc cc = sentinelDetails ∧
    fetchModelDetails (.ok (.jobj []))
        (.ok (.jobj [("m1", .jobj [("total_cost", .jnum 12)])])) =
      ⟨.jstr "N/A", .jstr "12 MB"⟩ :=
  ⟨fetchModelDetails_of_error rc cc h, rfl⟩

/-- Witness for C5 amended: both sub-requests rejecting gives the
all-sentinel record. -/
theorem C5_amended_rejection_swallowed_witness :
    fetchModelDetails (.error ()) (.error ()) = sentinelDetails :=
  (C5_amended_rejection_swallowed (.error ()) (.error ()) (Or.inl rfl)).1

/-- C6 counterexample: a cost payload with no entries makes the extracted
value fall back to the sentinel, but the returned cost field is the
template interpolation `N/A MB`, not the bare sentinel `N/A` the claim
names. -/
theorem C6_counterexample_na_mb :
    (fetchModelDetails (.ok (.jobj [("net_score", .jnum 4)])) (.ok (.jobj []))).cost =
      .jstr "N/A MB" ∧
    JVal.jstr "N/A MB" ≠ .jstr "N/A" :=
  ⟨rfl, by simp⟩

/-- The nullish-coalescing operator keeps any value that is neither null
nor undefined. -/
lemma nullish_some_of_ne_null (v d : JVal) (h : v ≠ .jnull) : nullish (some v) d = v := by
  cases v with
  | jnull => exact absurd rfl h
  | jnum n => rfl
  | jstr s => rfl
  | jbool b => rfl
  | jobj fields => rfl

/-- C6 amended: the cost is taken from the `total_cost` of the first
entry of the cost payload values; any present non-null value is
interpolated into the size-unit template — a numeric `n` yields `n MB`,
and a present non-numeric value is interpolated as-is (string `abc`
yields `abc MB`, boolean false yields `false MB`) because the code never
checks that the value is numeric — while an absent or null `total_cost`
yields the string `N/A MB`, the sentinel interpolated into the template,
never the bare sentinel `N/A`. -/
theorem C6_amended_cost_extraction (r c : JVal) (vals : List JVal)
    (hv : objectValues c = .ok vals) :
    (∀ n : Int, vals.head?.bind (fun v => v.getField "total_cost") = some (.jnum n) →
      (fetchModelDetails (.ok r) (.ok c)).cost = .jstr (toString n ++ " MB")) ∧
    (∀ v : JVal, vals.head?.bind (fun w => w.getField "total_cost") = some v →
      v ≠ .jnull →
      (fetchModelDetails (.ok r) (.ok c)).cost = .jstr (jsToString v ++ " MB")) ∧
    (vals.head?.bind (fun v => v.getField "total_cost") = none →
      (fetchModelDetails (.ok r) (.ok c)).cost = .jstr "N/A MB") ∧
    (vals.head?.bind (fun v => v.getField "total_cost") = some .jnull →
      (fetchModelDetails (.ok r) (.ok c)).cost = .jstr "N/A MB") ∧
    (fetchModelDetails (.ok r)
        (.ok (.jobj [("m1", .jobj [("total_cost", .jstr "abc")])]))).cost = .jstr "abc MB" ∧
    (fetchModelDetails (.ok r)
        (.ok (.jobj [("m1", .jobj [("total_cost", .jbool false)])]))).cost =
      .jstr "false MB" := by
  refine ⟨fun n hn => ?_, fun v hvv hne => ?_, fun hnone => ?_, fun hnull => ?_, rfl, rfl⟩
  · simp [fetchModelDetails, hv, hn, nullish, jsToString]
  · simp [fetchModelDetails, hv, hvv, nullish_some_of_ne_null v _ hne]
  · simp [fetchModelDetails, hv, hnone, nullish, jsToString]
  · simp [fetchModelDetails, hv, hnull, nullish, jsToString]

/-- Witness for C6 amended: numeric `total_cost` 12 gives `12 MB`, the
non-numeric string `abc` gives `abc MB`, and an empty cost payload gives
`N/A MB`. -/
theorem C6_amended_cost_extraction_witness :
    (fetchModelDetails (.ok (.jobj []))
        (.ok (.jobj [("m1", .jobj [("total_cost", .jnum 12)])]))).cost = .jstr "12 MB" ∧
    (fetchModelDetails (.ok (.jobj []))
        (.ok (.jobj [("m1", .jobj [("total_cost", .jstr "abc")])]))).cost = .jstr "abc MB" ∧
    (fetchModelDetails (.ok (.jobj [])) (.ok (.jobj []))).cost = .jstr "N/A MB" :=
  ⟨(C6_amended_cost_extraction (.jobj []) (.jobj [("m1", .jobj [("total_cost", .jnum 12)])])
      [.jobj [("total_cost", .jnum 12)]] rfl).1 12 rfl,
   (C6_amended_cost_extraction (.jobj []) (.jobj [("m1", .jobj [("total_cost", .jstr "abc")])])
      [.jobj [("total_cost", .jstr "abc")]] rfl).2.1 (.jstr "abc") rfl (by simp),
   (C6_amended_cost_extraction (.jobj []) (.jobj []) [] rfl).2.2.1 rfl⟩

/-- C10 counterexample: `fetchWithRetry` resolving with status 201 does
not guarantee a success report — a 201 whose body fails to parse as JSON
lands in the catch block and is reported as a failure, refuting the
claimed equivalence between a success report and status 201. -/
theorem C10_counterexample_201_unparsed_body :
    handleSubmitResult (some (.ok 201)) (.error ()) = .failureMsg := rfl

/-- C10 amended: the submit handler reports success exactly when the
status is 201, the body parses as JSON, and `metadata.name` is truthy (a
201 without a truthy name triggers the reference to the removed name
input and fails); and every 2xx status other than 201 is reported as a
failure through the error message path. -/
theorem C10_amended_success_conditions (res : Option (Except RetryError Nat))
    (body : Except Unit JVal) :
    ((handleSubmitResult res body).isSuccess = true ↔
      (res = some (.ok 201) ∧ ∃ result, body = .ok result ∧
        jsTruthy ((result.getField "metadata").bind (fun m => m.getField "name")) = true)) ∧
    (∀ status, isOk status = true → status ≠ 201 →
      handleSubmitResult (some (.ok status)) body = .failureMsg) := by
  constructor
  · cases res with
    | none => simp [handleSubmitResult, SubmitReport.isSuccess]
    | some r =>
      cases r with
      | error e => simp [handleSubmitResult, SubmitReport.isSuccess]
      | ok status =>
        by_cases hs : status = 201
        · subst hs
          cases body with
          | error e => simp [handleSubmitResult, SubmitReport.isSuccess]
          | ok result =>
            by_cases ht : jsTruthy
                ((result.getField "metadata").bind (fun m => m.getField "name")) = true
            · simp [handleSubmitResult, SubmitReport.isSuccess, ht]
            · simp [handleSubmitResult, SubmitReport.isSuccess, ht]
        · simp [handleSubmitResult, SubmitReport.isSuccess, hs]
  · intro status h1 h2
    simp [handleSubmitResult, h2]

/-- Witness for C10 amended: a resolved 202 — a successful status the
registry may return — is reported as a failure. -/
theorem C10_amended_success_conditions_witness :
    handleSubmitResult (some (.ok 202)) (.error ()) = .failureMsg :=
  (C10_amended_success_conditions (some (.ok 202)) (.error ())).2 202 (by decide) (by decide)
